import Mathlib

/-!
Shallow embedding of the ToneBridge auto-transform service
(services/auto-transform/app/main.py): trigger evaluators, the rule
resolver, the cache-aside config/rule reads, the evaluation endpoint and
the transform endpoint with its TransformationLog correlation update.

Conventions of the embedding:
* Python strings are Lean `String`s; substring membership (`in`) is the
  executable `occursIn` below.
* Floats (confidences, sentiment polarity, thresholds) are `ℚ`.
* Wall-clock instants are seconds since the epoch (`Nat`); the
  time-of-day used by the time trigger is `now % 86400` seconds.
* A raised Python exception is `Except.error msg`; the generic
  `except Exception` handlers of the endpoints correspond to returning
  that error (HTTP 500 with the message as detail).
* External collaborators that are not part of this repository (TextBlob
  sentiment, the `re` regex module) are parameters collected in
  `Externals`; `none` models the library call raising.
-/

/-- Decides whether the first list is a prefix of the second
(character-by-character). Helper for Python substring membership. -/
def isPrefixChars : List Char → List Char → Bool
  | [], _ => true
  | _ :: _, [] => false
  | a :: as, b :: bs => a == b && isPrefixChars as bs

/-- Python substring membership `needle in hay` on character lists:
true iff `needle` occurs contiguously in `hay` (the empty needle always
occurs). -/
def occursIn (needle : List Char) : List Char → Bool
  | [] => isPrefixChars needle []
  | h :: t => isPrefixChars needle (h :: t) || occursIn needle t

/-- Substring membership `needle in hay` on strings. -/
def strContains (hay needle : String) : Bool :=
  occursIn needle.data hay.data

/-- Python `str.lower` (per-character lowering). -/
def lowerStr (s : String) : String :=
  ⟨s.data.map Char.toLower⟩

/-- Python `min` on two floats. -/
def pyMin (a b : ℚ) : ℚ :=
  if a ≤ b then a else b

/-- Parses one decimal digit. -/
def digitVal (c : Char) : Option Nat :=
  if c.isDigit then some (c.toNat - 48) else none

/-- Parses exactly two leading decimal digits, returning the value and
the rest of the input. -/
def twoDigits : List Char → Option (Nat × List Char)
  | a :: b :: rest =>
    match digitVal a, digitVal b with
    | some x, some y => some (10 * x + y, rest)
    | _, _ => none
  | _ => none

/-- Embedding of Python `datetime.time.fromisoformat` restricted to the
`HH:MM` and `HH:MM:SS` shapes it accepts; result is seconds since
midnight, `none` models the `ValueError` raised on any other input. -/
def timeFromIso (s : String) : Option Nat :=
  match twoDigits s.data with
  | none => none
  | some (h, rest) =>
    if 24 ≤ h then none
    else
      match rest with
      | ':' :: r2 =>
        match twoDigits r2 with
        | none => none
        | some (m, r3) =>
          if 60 ≤ m then none
          else
            match r3 with
            | [] => some (3600 * h + 60 * m)
            | ':' :: r4 =>
              match twoDigits r4 with
              | none => none
              | some (sec, r5) =>
                if 60 ≤ sec then none
                else if r5 = [] then some (3600 * h + 60 * m + sec) else none
            | _ => none
      | _ => none

/-- Formats a number of seconds since midnight as the `strftime` pattern
HH:MM used in the time-trigger reason string. -/
def fmtHM (tod : Nat) : String :=
  let two : Nat → String := fun n => (if n < 10 then "0" else "") ++ toString n
  two (tod / 3600) ++ ":" ++ two (tod % 3600 / 60)

/-- Result shape shared by every trigger evaluator
(matches, confidence, reason). -/
structure TriggerResult where
  isMatch : Bool
  confidence : ℚ
  reason : String
deriving DecidableEq

/-- A JSON value as stored inside the `trigger_value` dict's lists: the
dict is Dict[str, Any] holding raw JSON, so the keyword and pattern
lists may contain non-string entries, on which the evaluators raise. -/
inductive JVal where
  | str (s : String)
  | num (n : Int)
  | bool (b : Bool)
  | null
deriving DecidableEq

/-- The AttributeError raised by `kw.lower()` on a non-string keyword. -/
def pyAttrError : String := "AttributeError: no attribute lower"

/-- The TypeError raised by `re.compile` on a non-string pattern (not
caught by the `except re.error` handler). -/
def pyTypeError : String := "TypeError: first argument must be string or compiled pattern"

/-- The fields the evaluators read out of the JSON `trigger_value` dict,
with the defaults the `.get` calls in main.py use. -/
structure TriggerValue where
  keywords : List JVal := []
  threshold : ℚ := 0
  operatorName : String := "less_than"
  roles : List String := []
  ids : List String := []
  chanType : Option String := none
  after : Option String := none
  before : Option String := none
  patterns : List JVal := []
deriving DecidableEq

/-- External collaborators of the evaluators that are not part of this
repository: TextBlob's sentiment polarity (none models the library
raising) and `re.compile` (none models `re.error`; a compiled pattern is
its `search ≠ None` predicate, IGNORECASE included). -/
structure Externals where
  polarity : String → Option ℚ
  reCompile : String → Option (String → Bool)

/-- Prints a rational for the reason strings (stand-in for Python float
formatting, whose exact rendering the service never inspects). -/
def qStr (q : ℚ) : String :=
  toString q.num ++ "/" ++ toString q.den

/-- The list comprehension of _check_keywords: keeps the keywords whose
lowering occurs in the lowered message; `kw.lower()` on a non-string
entry raises AttributeError, which nothing catches. -/
def foundKeywords (message_lower : String) : List JVal → Except String (List String)
  | [] => .ok []
  | .str s :: rest =>
    match foundKeywords message_lower rest with
    | .error e => .error e
    | .ok found =>
      .ok (if strContains message_lower (lowerStr s) then s :: found else found)
  | .num _ :: _ => .error pyAttrError
  | .bool _ :: _ => .error pyAttrError
  | .null :: _ => .error pyAttrError

/-- Embedding of RuleEngine._check_keywords: case-insensitive substring
search; on a match, confidence is min 1 (found / total); a non-string
keyword raises out of the evaluator (no try/except in the source). -/
def check_keywords (message : String) (keywords : List JVal) :
    Except String TriggerResult :=
  let message_lower := lowerStr message
  match foundKeywords message_lower keywords with
  | .error e => .error e
  | .ok found_keywords =>
    if found_keywords ≠ [] then
      .ok { isMatch := true
            confidence := pyMin 1 ((found_keywords.length : ℚ) / (keywords.length : ℚ))
            reason := "Contains keywords: " ++ String.intercalate ", " found_keywords }
    else
      .ok { isMatch := false, confidence := 0, reason := "No keywords found" }

/-- Embedding of RuleEngine._check_sentiment: the whole body is inside
try/except, so a polarity failure degrades to the no-match result; the
fall-through when no operator fires shares the same reason string. -/
def check_sentiment (ext : Externals) (message : String) (tv : TriggerValue) : TriggerResult :=
  match ext.polarity message with
  | none => { isMatch := false, confidence := 0, reason := "Sentiment check failed" }
  | some polarity =>
    let threshold := tv.threshold
    let op := tv.operatorName
    let isMatch :=
      if op = "less_than" ∧ polarity < threshold then true
      else if op = "greater_than" ∧ threshold < polarity then true
      else if op = "equals" ∧ |polarity - threshold| < 1/10 then true
      else false
    if isMatch then
      { isMatch := true
        confidence := pyMin 1 (|polarity - threshold| / 2)
        reason := "Sentiment polarity " ++ qStr polarity ++ " " ++ op ++ " " ++ qStr threshold }
    else
      { isMatch := false, confidence := 0, reason := "Sentiment check failed" }

/-- Embedding of RuleEngine._check_recipients: id-intersection first
(confidence 0.9); otherwise configured roles match unconditionally
(confidence 0.8, a documented placeholder); set intersection is modelled
as a membership filter. -/
def check_recipients (recipient_ids : List String) (tv : TriggerValue) : TriggerResult :=
  let target_roles := tv.roles
  let target_ids := tv.ids
  let matching_ids := recipient_ids.filter fun i => target_ids.contains i
  if target_ids ≠ [] ∧ matching_ids ≠ [] then
    { isMatch := true, confidence := 9/10
      reason := "Recipient match: " ++ String.intercalate ", " matching_ids }
  else if target_roles ≠ [] then
    { isMatch := true, confidence := 8/10
      reason := "Recipient role match: " ++ String.intercalate ", " target_roles }
  else
    { isMatch := false, confidence := 0, reason := "No recipient match" }

/-- Embedding of RuleEngine._check_channel: a missing or empty channel
id never matches; exact id membership gives confidence 1; else the
support-substring heuristic gives 0.8. -/
def check_channel (channel_id : Option String) (tv : TriggerValue) : TriggerResult :=
  match channel_id with
  | none => { isMatch := false, confidence := 0, reason := "No channel specified" }
  | some cid =>
    if cid = "" then
      { isMatch := false, confidence := 0, reason := "No channel specified" }
    else if tv.ids ≠ [] ∧ tv.ids.contains cid then
      { isMatch := true, confidence := 1, reason := "Channel match: " ++ cid }
    else
      match tv.chanType with
      | some t =>
        if t = "support" ∧ strContains (lowerStr cid) "support" then
          { isMatch := true, confidence := 8/10, reason := "Channel type match: " ++ t }
        else
          { isMatch := false, confidence := 0, reason := "No channel match" }
      | none => { isMatch := false, confidence := 0, reason := "No channel match" }

/-- Embedding of RuleEngine._check_time. The body has no try/except, so
`time.fromisoformat` raising on an unparsable bound propagates out of
the evaluator: that is the `Except.error` case. A present bound that
parses is compared against the current time-of-day with `<` and `>`, so
both bounds are inclusive on match. An empty-string bound is falsy in
Python and skipped. -/
def check_time (now : Nat) (tv : TriggerValue) : Except String TriggerResult :=
  let current_time := now % 86400
  let afterStep : Except String (Option TriggerResult) :=
    match tv.after with
    | none => .ok none
    | some s =>
      if s = "" then .ok none
      else
        match timeFromIso s with
        | none => .error ("Invalid isoformat string: " ++ s)
        | some after_time =>
          if current_time < after_time then
            .ok (some { isMatch := false, confidence := 0, reason := "Before time window" })
          else .ok none
  match afterStep with
  | .error e => .error e
  | .ok (some r) => .ok r
  | .ok none =>
    let beforeStep : Except String (Option TriggerResult) :=
      match tv.before with
      | none => .ok none
      | some s =>
        if s = "" then .ok none
        else
          match timeFromIso s with
          | none => .error ("Invalid isoformat string: " ++ s)
          | some before_time =>
            if before_time < current_time then
              .ok (some { isMatch := false, confidence := 0, reason := "After time window" })
            else .ok none
    match beforeStep with
    | .error e => .error e
    | .ok (some r) => .ok r
    | .ok none =>
      .ok { isMatch := true, confidence := 9/10
            reason := "Within time window: " ++ fmtHM current_time }

/-- Embedding of RuleEngine._check_patterns: the first pattern whose
compiled regex finds a match wins; a malformed pattern STRING is skipped
(the `except re.error` branch), but a non-string pattern raises
TypeError from `re.compile`, which `except re.error` does not catch. -/
def check_patterns (ext : Externals) (message : String) :
    List JVal → Except String TriggerResult
  | [] => .ok { isMatch := false, confidence := 0, reason := "No pattern match" }
  | .str p :: ps =>
    match ext.reCompile p with
    | none => check_patterns ext message ps
    | some search =>
      if search message then
        .ok { isMatch := true, confidence := 9/10, reason := "Pattern match: " ++ p }
      else check_patterns ext message ps
  | .num _ :: _ => .error pyTypeError
  | .bool _ :: _ => .error pyTypeError
  | .null :: _ => .error pyTypeError

/-- Embedding of RuleEngine._evaluate_trigger: dispatch on the trigger
type string; only the time evaluator can raise, and its exception
propagates (the dispatcher has no handler). -/
def evaluate_trigger (ext : Externals) (now : Nat) (message : String)
    (recipient_ids : List String) (channel_id : Option String)
    (trigger_type : String) (tv : TriggerValue) : Except String TriggerResult :=
  if trigger_type = "keyword" then check_keywords message tv.keywords
  else if trigger_type = "sentiment" then .ok (check_sentiment ext message tv)
  else if trigger_type = "recipient" then .ok (check_recipients recipient_ids tv)
  else if trigger_type = "channel" then .ok (check_channel channel_id tv)
  else if trigger_type = "time" then check_time now tv
  else if trigger_type = "pattern" then check_patterns ext message tv.patterns
  else .ok { isMatch := false, confidence := 0, reason := "Unknown trigger type" }

/-- Embedding of the MessageContext pydantic model. -/
structure MessageContext where
  message : String
  user_id : String
  tenant_id : String
  platform : String
  channel_id : Option String := none
  recipient_ids : List String := []
deriving DecidableEq

/-- Shape of one rule row as evaluate_message sees it (a dict out of the
rules cache or the auto_transform_rules query). -/
structure RuleRec where
  id : String
  config_id : String
  rule_name : String
  enabled : Bool
  priority : Int
  trigger_type : String
  trigger_value : TriggerValue
  transformation_type : String
  transformation_intensity : Int
  transformation_options : List (String × String)
  platforms : List String
  channels : List String
deriving DecidableEq

/-- Embedding of the TransformationResult pydantic model. -/
structure TransformationResult where
  should_transform : Bool
  rule_id : Option String := none
  rule_name : Option String := none
  transformation_type : String
  transformation_intensity : Int
  transformation_options : List (String × String) := []
  confidence : ℚ := 0
  reason : Option String := none
deriving DecidableEq

/-- One entry of the `matches` list built by RuleEngine.evaluate_rules:
the rule together with its trigger confidence and reason. -/
structure MatchEntry where
  rule : RuleRec
  confidence : ℚ
  reason : String
deriving DecidableEq

/-- Strict comparison used by the sort in evaluate_rules: Python tuple
comparison of the (priority, confidence) keys. -/
def keyGT (a b : MatchEntry) : Bool :=
  decide (b.rule.priority < a.rule.priority) ||
    (decide (a.rule.priority = b.rule.priority) && decide (b.confidence < a.confidence))

/-- Stable insertion into a key-descending list: the new element (which
comes earlier in the original list) passes only elements whose key is
strictly greater, matching Python's stable `sort(reverse=True)`. -/
def insertDesc (a : MatchEntry) : List MatchEntry → List MatchEntry
  | [] => [a]
  | b :: bs => if keyGT b a then b :: insertDesc a bs else a :: b :: bs

/-- Stable sort by (priority, confidence) descending, the embedding of
`matches.sort(key=lambda x: (priority, confidence), reverse=True)`. -/
def sortDesc : List MatchEntry → List MatchEntry
  | [] => []
  | a :: as => insertDesc a (sortDesc as)

/-- Checks the enabled flag and the platform/channel allow-lists of one
rule, i.e. the three `continue` guards of the evaluate_rules loop; a
non-empty channel list never admits a context without a channel id. -/
def ruleAdmitted (ctx : MessageContext) (r : RuleRec) : Bool :=
  r.enabled &&
    (r.platforms.isEmpty || r.platforms.contains ctx.platform) &&
    (r.channels.isEmpty ||
      (match ctx.channel_id with
       | some c => r.channels.contains c
       | none => false))

/-- The match-collection loop of RuleEngine.evaluate_rules, instrumented
with the number of trigger evaluations performed; an evaluator exception
aborts the loop and propagates. -/
def collectMatchesC (ext : Externals) (now : Nat) (ctx : MessageContext) :
    List RuleRec → Except String (List MatchEntry) × Nat
  | [] => (.ok [], 0)
  | r :: rs =>
    if ruleAdmitted ctx r then
      match evaluate_trigger ext now ctx.message ctx.recipient_ids ctx.channel_id
          r.trigger_type r.trigger_value with
      | .error e => (.error e, 1)
      | .ok tr =>
        match collectMatchesC ext now ctx rs with
        | (.ok ms, n) =>
          (.ok (if tr.isMatch then ⟨r, tr.confidence, tr.reason⟩ :: ms else ms), n + 1)
        | (.error e, n) => (.error e, n + 1)
    else collectMatchesC ext now ctx rs

/-- Builds the TransformationResult returned for the best match at the
end of RuleEngine.evaluate_rules. -/
def mkResult (best : MatchEntry) : TransformationResult :=
  { should_transform := true
    rule_id := some best.rule.id
    rule_name := some best.rule.rule_name
    transformation_type := best.rule.transformation_type
    transformation_intensity := best.rule.transformation_intensity
    transformation_options := best.rule.transformation_options
    confidence := best.confidence
    reason := some best.reason }

/-- Embedding of RuleEngine.evaluate_rules (with the trigger-evaluation
count carried along): collect matches, return None when there are none,
otherwise sort by (priority, confidence) descending and take the first
entry. -/
def evaluate_rulesC (ext : Externals) (now : Nat) (ctx : MessageContext)
    (rules : List RuleRec) : Except String (Option TransformationResult) × Nat :=
  match collectMatchesC ext now ctx rules with
  | (.error e, n) => (.error e, n)
  | (.ok ms, n) =>
    if ms.isEmpty then (.ok none, n)
    else
      match sortDesc ms with
      | [] => (.ok none, n)
      | best :: _ => (.ok (some (mkResult best)), n)

/-- RuleEngine.evaluate_rules without the instrumentation. -/
def evaluate_rules (ext : Externals) (now : Nat) (ctx : MessageContext)
    (rules : List RuleRec) : Except String (Option TransformationResult) :=
  (evaluate_rulesC ext now ctx rules).1

/-- One row of the auto_transform_configs table. -/
structure ConfigRec where
  id : String
  tenant_id : String
  enabled : Bool
  default_transformation_type : String
  default_intensity : Int
  min_message_length : Nat
  max_processing_delay_ms : Int
  require_confirmation : Bool
  show_preview : Bool
  preserve_original : Bool
deriving DecidableEq

/-- One row of the auto_transform_logs table. -/
structure LogRec where
  tenant_id : String
  rule_id : Option String
  user_id : String
  original_message : String
  transformed_message : Option String
  platform : String
  channel_id : Option String
  status : String
  error_message : Option String
  triggered_at : Nat
  processed_at : Option Nat
deriving DecidableEq

/-- The persistent store: config rows, rule rows and transformation
logs. -/
structure DB where
  configs : List ConfigRec
  rules : List RuleRec
  logs : List LogRec
deriving DecidableEq

/-- Looks up a key in an association list of (key, expiry, value)
entries: an entry is visible only before its expiry, like a Redis key
written with SETEX. -/
def kvGet {α : Type} (l : List (String × Nat × α)) (key : String) (now : Nat) : Option α :=
  match l.find? fun e => e.1 == key with
  | some e => if now < e.2.1 then some e.2.2 else none
  | none => none

/-- Writes (key, expiry, value), replacing any entry with the same key
(Redis SETEX). -/
def kvSet {α : Type} (l : List (String × Nat × α)) (key : String) (exp : Nat) (v : α) :
    List (String × Nat × α) :=
  (key, exp, v) :: l.filter fun e => !(e.1 == key)

/-- Deletes a key (Redis DELETE). -/
def kvDel {α : Type} (l : List (String × Nat × α)) (key : String) :
    List (String × Nat × α) :=
  l.filter fun e => !(e.1 == key)

/-- The Redis cache: an availability flag (false models the connection
raising on every command) and the two key families
auto_transform:config:tenant and auto_transform:rules:tenant, both keyed
here by the tenant id with their 300-second expiry stored alongside. -/
structure Cache where
  available : Bool
  config : List (String × Nat × ConfigRec)
  rules : List (String × Nat × List RuleRec)
deriving DecidableEq

/-- Error detail used when a Redis command raises. -/
def redisErr : String := "Redis unavailable"

/-- Redis GET on the config key family. -/
def cacheGetConfig (c : Cache) (tenant : String) (now : Nat) :
    Except String (Option ConfigRec) :=
  if c.available then .ok (kvGet c.config tenant now) else .error redisErr

/-- Redis SETEX of a config with the 300-second TTL. -/
def cacheSetConfig (c : Cache) (tenant : String) (now : Nat) (v : ConfigRec) :
    Except String Cache :=
  if c.available then .ok { c with config := kvSet c.config tenant (now + 300) v }
  else .error redisErr

/-- Redis GET on the rules key family. -/
def cacheGetRules (c : Cache) (tenant : String) (now : Nat) :
    Except String (Option (List RuleRec)) :=
  if c.available then .ok (kvGet c.rules tenant now) else .error redisErr

/-- Redis SETEX of a rule list with the 300-second TTL. -/
def cacheSetRules (c : Cache) (tenant : String) (now : Nat) (v : List RuleRec) :
    Except String Cache :=
  if c.available then .ok { c with rules := kvSet c.rules tenant (now + 300) v }
  else .error redisErr

/-- The full mutable state the endpoints touch: Redis plus the
database. -/
structure SysState where
  cache : Cache
  db : DB
deriving DecidableEq

/-- Stable insertion for rule rows by priority descending, used to model
the ORDER BY priority DESC of the rules query. -/
def insertRuleDesc (a : RuleRec) : List RuleRec → List RuleRec
  | [] => [a]
  | b :: bs => if a.priority < b.priority then b :: insertRuleDesc a bs else a :: b :: bs

/-- ORDER BY priority DESC over rule rows (stable w.r.t. table order). -/
def sortRulesDesc : List RuleRec → List RuleRec
  | [] => []
  | a :: as => insertRuleDesc a (sortRulesDesc as)

/-- The config-loading step of evaluate_message (cache first; on a miss
the auto_transform_configs row is read, and a missing or disabled row
short-circuits as `none`, the "Auto-transform disabled" response, before
anything else is looked at; only an enabled row is cached). -/
def readTenantConfig (now : Nat) (tenant : String) (s : SysState) :
    Except String (Option ConfigRec × SysState) :=
  match cacheGetConfig s.cache tenant now with
  | .error e => .error e
  | .ok (some cfg) => .ok (some cfg, s)
  | .ok none =>
    match s.db.configs.find? fun c => c.tenant_id == tenant with
    | none => .ok (none, s)
    | some c =>
      if !c.enabled then .ok (none, s)
      else
        match cacheSetConfig s.cache tenant now c with
        | .error e => .error e
        | .ok cache' => .ok (some c, { s with cache := cache' })

/-- The rule-loading step of evaluate_message (cache first; on a miss
the enabled rules of the tenant's config are read ordered by priority
descending and cached). -/
def readRules (now : Nat) (tenant : String) (cfg : ConfigRec) (s : SysState) :
    Except String (List RuleRec × SysState) :=
  match cacheGetRules s.cache tenant now with
  | .error e => .error e
  | .ok (some rs) => .ok (rs, s)
  | .ok none =>
    let rs := sortRulesDesc (s.db.rules.filter fun r => r.config_id == cfg.id && r.enabled)
    match cacheSetRules s.cache tenant now rs with
    | .error e => .error e
    | .ok cache' => .ok (rs, { s with cache := cache' })

/-- Response body of the /evaluate endpoint: either one of the
should_transform=false dictionaries with a reason, or the
TransformationResult of the winning rule. -/
inductive EvalBody where
  | negative (reason : String)
  | positive (r : TransformationResult)
deriving DecidableEq

/-- Embedding of the /evaluate endpoint (evaluate_message). The third
component counts the trigger evaluations performed. Any exception
(Redis, evaluator) reaches the outer handler and becomes the
`Except.error` HTTP 500; a winning rule inserts the
status='triggered' log row. -/
def evaluate_message (ext : Externals) (now : Nat) (ctx : MessageContext) (s : SysState) :
    Except String EvalBody × SysState × Nat :=
  match readTenantConfig now ctx.tenant_id s with
  | .error e => (.error e, s, 0)
  | .ok (none, s1) => (.ok (.negative "Auto-transform disabled"), s1, 0)
  | .ok (some config, s1) =>
    if ctx.message.length < config.min_message_length then
      (.ok (.negative "Message too short"), s1, 0)
    else
      match readRules now ctx.tenant_id config s1 with
      | .error e => (.error e, s1, 0)
      | .ok (rules, s2) =>
        if rules.isEmpty then (.ok (.negative "No active rules"), s2, 0)
        else
          match evaluate_rulesC ext now ctx rules with
          | (.error e, n) => (.error e, s2, n)
          | (.ok (some res), n) =>
            let log : LogRec :=
              { tenant_id := ctx.tenant_id
                rule_id := res.rule_id
                user_id := ctx.user_id
                original_message := ctx.message
                transformed_message := none
                platform := ctx.platform
                channel_id := ctx.channel_id
                status := "triggered"
                error_message := none
                triggered_at := now
                processed_at := none }
            (.ok (.positive res),
              { s2 with db := { s2.db with logs := s2.db.logs ++ [log] } }, n)
          | (.ok none, n) => (.ok (.negative "No matching rules"), s2, n)

/-- Outcome of the HTTP call to the external transform service as seen
by the /transform endpoint: a 2xx JSON body (its success flag and
data.transformed_text), a non-2xx status (raise_for_status), or a
timeout/transport error. -/
inductive LLMResponse where
  | ok (success : Bool) (transformed_text : String)
  | httpStatusError (code : Nat)
  | transportError (msg : String)
deriving DecidableEq

/-- What the try-block of auto_transform does with the upstream
response: the transformed text on a success flag, otherwise the raised
exception's text (raise_for_status for a non-2xx, the explicit
`Exception("Transformation failed")` for a success=False body, the
transport error itself). -/
def upstreamOutcome : LLMResponse → Except String String
  | .ok true t => .ok t
  | .ok false _ => .error "Transformation failed"
  | .httpStatusError code => .error ("HTTP status error: " ++ toString code)
  | .transportError msg => .error msg

/-- The WHERE clause both UPDATEs of auto_transform share: same tenant
and user, status='triggered', triggered_at strictly inside the last 60
seconds. -/
def logMatches (now : Nat) (ctx : MessageContext) (l : LogRec) : Bool :=
  l.tenant_id == ctx.tenant_id && l.user_id == ctx.user_id &&
    l.status == "triggered" && decide (now < l.triggered_at + 60)

/-- The SET clause of the success UPDATE. -/
def successLog (text : String) (now : Nat) (l : LogRec) : LogRec :=
  { l with transformed_message := some text, processed_at := some now,
           status := "transformed" }

/-- The SET clause of the failure UPDATE. -/
def failLog (e : String) (now : Nat) (l : LogRec) : LogRec :=
  { l with status := "failed", error_message := some e, processed_at := some now }

/-- The success UPDATE applied to the whole log table: every row the
correlation clause selects is rewritten, the others kept. -/
def successLogs (text : String) (now : Nat) (ctx : MessageContext)
    (logs : List LogRec) : List LogRec :=
  logs.map fun l => if logMatches now ctx l then successLog text now l else l

/-- The failure UPDATE applied to the whole log table. -/
def failLogs (e : String) (now : Nat) (ctx : MessageContext)
    (logs : List LogRec) : List LogRec :=
  logs.map fun l => if logMatches now ctx l then failLog e now l else l

/-- Success body of the /transform endpoint. -/
structure TransformBody where
  success : Bool
  original : String
  transformed : String
  rule_applied : Option String
  confidence : ℚ
deriving DecidableEq

/-- Embedding of the /transform endpoint (auto_transform). The upstream
call's outcome is the `resp` parameter. On success every log row the
correlation WHERE clause selects is set to status='transformed' (the SQL
UPDATE has no LIMIT) and the success body is returned; on any upstream
failure the same rows are set to status='failed' with the error text and
the handler re-raises as HTTP 500 (`Except.error`). The best-effort
background metrics write touches neither the result nor this state. -/
def auto_transform (resp : LLMResponse) (now : Nat) (ctx : MessageContext)
    (transformation : TransformationResult) (s : SysState) :
    Except String TransformBody × SysState :=
  match upstreamOutcome resp with
  | .ok text =>
    (.ok { success := true
           original := ctx.message
           transformed := text
           rule_applied := transformation.rule_name
           confidence := transformation.confidence },
      { s with db := { s.db with logs := successLogs text now ctx s.db.logs } })
  | .error e =>
    (.error e, { s with db := { s.db with logs := failLogs e now ctx s.db.logs } })

/-- Embedding of the AutoTransformConfig request body of the
PUT /config endpoint. -/
structure AutoTransformConfigIn where
  enabled : Bool := false
  default_transformation_type : String := "soften"
  default_intensity : Int := 2
  min_message_length : Nat := 50
  max_processing_delay_ms : Int := 500
  require_confirmation : Bool := true
  show_preview : Bool := true
  preserve_original : Bool := true
deriving DecidableEq

/-- The SET clause of the config UPDATE: overwrites every configurable
field, keeping id and tenant_id. -/
def applyCfg (cfg : AutoTransformConfigIn) (c : ConfigRec) : ConfigRec :=
  { c with enabled := cfg.enabled
           default_transformation_type := cfg.default_transformation_type
           default_intensity := cfg.default_intensity
           min_message_length := cfg.min_message_length
           max_processing_delay_ms := cfg.max_processing_delay_ms
           require_confirmation := cfg.require_confirmation
           show_preview := cfg.show_preview
           preserve_original := cfg.preserve_original }

/-- A fresh ConfigRec for the INSERT branch of PUT /config; `newId`
stands for the generated primary key. -/
def newConfigRec (newId tenant : String) (cfg : AutoTransformConfigIn) : ConfigRec :=
  { id := newId
    tenant_id := tenant
    enabled := cfg.enabled
    default_transformation_type := cfg.default_transformation_type
    default_intensity := cfg.default_intensity
    min_message_length := cfg.min_message_length
    max_processing_delay_ms := cfg.max_processing_delay_ms
    require_confirmation := cfg.require_confirmation
    show_preview := cfg.show_preview
    preserve_original := cfg.preserve_original }

/-- Embedding of the PUT /config endpoint (update_config): UPDATE the
existing row or INSERT a new one, commit, then DELETE the tenant's
config cache key. A Redis failure on the delete reaches the handler
after the commit, so the database keeps the new value while the
endpoint reports the error (the rollback after a commit is a no-op). -/
def update_config (tenant : String) (cfg : AutoTransformConfigIn) (newId : String)
    (s : SysState) : Except String Unit × SysState :=
  let configs' :=
    match s.db.configs.find? fun c => c.tenant_id == tenant with
    | some _ => s.db.configs.map fun c => if c.tenant_id == tenant then applyCfg cfg c else c
    | none => s.db.configs ++ [newConfigRec newId tenant cfg]
  let s' : SysState := { s with db := { s.db with configs := configs' } }
  if s.cache.available then
    (.ok (), { s' with cache := { s'.cache with config := kvDel s'.cache.config tenant } })
  else
    (.error redisErr, s')

/-! Helper lemmas. -/

instance {ε α : Type} [DecidableEq ε] [DecidableEq α] : DecidableEq (Except ε α)
  | .error x, .error y =>
    if h : x = y then isTrue (by rw [h]) else isFalse fun hh => h (Except.error.inj hh)
  | .error _, .ok _ => isFalse fun hh => Except.noConfusion hh
  | .ok _, .error _ => isFalse fun hh => Except.noConfusion hh
  | .ok x, .ok y =>
    if h : x = y then isTrue (by rw [h]) else isFalse fun hh => h (Except.ok.inj hh)

theorem keyGT_iff (a b : MatchEntry) :
    keyGT a b = true ↔
      b.rule.priority < a.rule.priority ∨
        (a.rule.priority = b.rule.priority ∧ b.confidence < a.confidence) := by
  simp [keyGT]

theorem keyGT_eq_false_iff (a b : MatchEntry) :
    keyGT a b = false ↔
      a.rule.priority ≤ b.rule.priority ∧
        (a.rule.priority = b.rule.priority → a.confidence ≤ b.confidence) := by
  rw [← Bool.not_eq_true, keyGT_iff]
  push_neg
  tauto

theorem keyGT_irrefl (a : MatchEntry) : keyGT a a = false := by
  rw [keyGT_eq_false_iff]
  exact ⟨le_refl _, fun _ => le_refl _⟩

theorem keyGT_asymm {a b : MatchEntry} (h : keyGT a b = true) : keyGT b a = false := by
  rw [keyGT_iff] at h
  rw [keyGT_eq_false_iff]
  rcases h with h | ⟨heq, hc⟩
  · refine ⟨le_of_lt h, fun he => absurd h ?_⟩
    rw [he]
    exact lt_irrefl _
  · exact ⟨le_of_eq heq.symm, fun _ => le_of_lt hc⟩

theorem keyGT_false_trans {x b a : MatchEntry}
    (h1 : keyGT x b = false) (h2 : keyGT b a = false) : keyGT x a = false := by
  rw [keyGT_eq_false_iff] at h1 h2 ⊢
  obtain ⟨hp1, hc1⟩ := h1
  obtain ⟨hp2, hc2⟩ := h2
  refine ⟨le_trans hp1 hp2, fun he => ?_⟩
  have hba : b.rule.priority ≤ x.rule.priority := he ▸ hp2
  have hxb : x.rule.priority = b.rule.priority := le_antisymm hp1 hba
  exact le_trans (hc1 hxb) (hc2 (hxb.symm.trans he))

theorem mem_insertDesc {x a : MatchEntry} :
    ∀ {l : List MatchEntry}, x ∈ insertDesc a l ↔ x = a ∨ x ∈ l := by
  intro l
  induction l with
  | nil => simp [insertDesc]
  | cons b bs ih =>
    simp only [insertDesc]
    split
    · simp only [List.mem_cons, ih]
      tauto
    · simp only [List.mem_cons]

theorem mem_sortDesc {x : MatchEntry} :
    ∀ {l : List MatchEntry}, x ∈ sortDesc l ↔ x ∈ l := by
  intro l
  induction l with
  | nil => simp [sortDesc]
  | cons a as ih =>
    simp only [sortDesc, mem_insertDesc, List.mem_cons, ih]

theorem length_insertDesc (a : MatchEntry) :
    ∀ l : List MatchEntry, (insertDesc a l).length = l.length + 1 := by
  intro l
  induction l with
  | nil => rfl
  | cons b bs ih =>
    simp only [insertDesc]
    split
    · simp [ih]
    · simp

theorem length_sortDesc : ∀ l : List MatchEntry, (sortDesc l).length = l.length := by
  intro l
  induction l with
  | nil => rfl
  | cons a as ih => simp [sortDesc, length_insertDesc, ih]

theorem sortDesc_head_max :
    ∀ (l : List MatchEntry) (b : MatchEntry) (tl : List MatchEntry),
      sortDesc l = b :: tl → ∀ x ∈ l, keyGT x b = false := by
  intro l
  induction l with
  | nil => intro b tl h; simp [sortDesc] at h
  | cons a as ih =>
    intro b tl h x hx
    rw [sortDesc] at h
    rcases hs : sortDesc as with _ | ⟨b', t'⟩
    · rw [hs] at h
      simp only [insertDesc] at h
      obtain ⟨hb, -⟩ := List.cons.inj h
      rcases List.mem_cons.mp hx with rfl | hxas
      · rw [← hb]; exact keyGT_irrefl x
      · exfalso
        have : x ∈ sortDesc as := mem_sortDesc.mpr hxas
        rw [hs] at this
        exact absurd this (List.not_mem_nil x)
    · rw [hs] at h
      simp only [insertDesc] at h
      cases hba : keyGT b' a with
      | true =>
        rw [hba, if_pos rfl] at h
        obtain ⟨hb, -⟩ := List.cons.inj h
        rw [← hb]
        rcases List.mem_cons.mp hx with rfl | hxas
        · exact keyGT_asymm hba
        · exact ih b' t' hs x hxas
      | false =>
        rw [hba] at h
        simp only [Bool.false_eq_true, if_false] at h
        obtain ⟨hb, -⟩ := List.cons.inj h
        rw [← hb]
        rcases List.mem_cons.mp hx with rfl | hxas
        · exact keyGT_irrefl x
        · exact keyGT_false_trans (ih b' t' hs x hxas) hba

/-! Claim theorems. -/

/-- C1: whenever at least two rules match, RuleEngine.evaluate_rules
sorts the matches by (priority descending, confidence descending) and
returns the first entry, so the selected match has a priority at least
that of every match (a strictly higher-priority match always wins
regardless of confidence) and, among matches of equal priority, a
confidence at least theirs. -/
theorem c1_resolver_priority_then_confidence
    (ext : Externals) (now : Nat) (ctx : MessageContext) (rules : List RuleRec)
    (ms : List MatchEntry) (n : Nat)
    (hms : collectMatchesC ext now ctx rules = (.ok ms, n))
    (hlen : 2 ≤ ms.length) :
    ∃ best tl, sortDesc ms = best :: tl ∧
      evaluate_rules ext now ctx rules = .ok (some (mkResult best)) ∧
      ∀ m ∈ ms, m.rule.priority ≤ best.rule.priority ∧
        (m.rule.priority = best.rule.priority → m.confidence ≤ best.confidence) := by
  rcases hs : sortDesc ms with _ | ⟨best, tl⟩
  · exfalso
    have := length_sortDesc ms
    rw [hs] at this
    simp at this
    rw [← this] at hlen
    exact absurd hlen (by norm_num)
  · refine ⟨best, tl, rfl, ?_, ?_⟩
    · have hne : ms.isEmpty = false := by
        cases ms with
        | nil => simp at hlen
        | cons _ _ => rfl
      unfold evaluate_rules evaluate_rulesC
      simp only [hms, hne, hs, Bool.false_eq_true, if_false]
    · intro m hm
      have := sortDesc_head_max ms best tl hs m hm
      exact (keyGT_eq_false_iff m best).mp this

/-- Externals instance for concrete runs: constant zero polarity and an
always-failing regex compiler. -/
def testExt : Externals :=
  { polarity := fun _ => some 0, reCompile := fun _ => none }

/-- Context used by the concrete C1 run. -/
def c1ctx : MessageContext :=
  { message := "please fix this now", user_id := "u1", tenant_id := "t1",
    platform := "slack" }

/-- Priority-10 keyword rule matching one of two keywords
(confidence 1/2). -/
def c1ruleHi : RuleRec :=
  { id := "r-hi", config_id := "cfg1", rule_name := "high-priority", enabled := true,
    priority := 10, trigger_type := "keyword",
    trigger_value := { keywords := [.str "fix", .str "zzz"] },
    transformation_type := "soften", transformation_intensity := 2,
    transformation_options := [], platforms := [], channels := [] }

/-- Priority-5 keyword rule matching both of its keywords
(confidence 1). -/
def c1ruleLo : RuleRec :=
  { id := "r-lo", config_id := "cfg1", rule_name := "low-priority", enabled := true,
    priority := 5, trigger_type := "keyword",
    trigger_value := { keywords := [.str "fix", .str "now"] },
    transformation_type := "soften", transformation_intensity := 2,
    transformation_options := [], platforms := [], channels := [] }

/-- The two match entries the C1 run produces. -/
def c1ms : List MatchEntry :=
  [⟨c1ruleHi, 1/2, "Contains keywords: fix"⟩,
   ⟨c1ruleLo, 1, "Contains keywords: fix, now"⟩]

unseal Rat.mul Rat.inv in
/-- C1 witness: on the concrete two-match run, the priority-10 rule is
selected over the priority-5 rule even though its confidence (1/2) is
lower. -/
theorem c1_resolver_priority_then_confidence_witness :
    ∃ best tl, sortDesc c1ms = best :: tl ∧
      evaluate_rules testExt 0 c1ctx [c1ruleHi, c1ruleLo] = .ok (some (mkResult best)) ∧
      ∀ m ∈ c1ms, m.rule.priority ≤ best.rule.priority ∧
        (m.rule.priority = best.rule.priority → m.confidence ≤ best.confidence) :=
  c1_resolver_priority_then_confidence testExt 0 c1ctx [c1ruleHi, c1ruleLo] c1ms 2
    (by decide) (by decide)

/-- On an all-string keyword list the comprehension returns exactly the
keywords whose lowering occurs in the lowered message. -/
theorem foundKeywords_map_str (ml : String) :
    ∀ kws : List String,
      foundKeywords ml (kws.map JVal.str) =
        .ok (kws.filter fun kw => strContains ml (lowerStr kw)) := by
  intro kws
  induction kws with
  | nil => rfl
  | cons k ks ih =>
    rw [List.map_cons, List.filter_cons, foundKeywords, ih]

/-- The comprehension never keeps more entries than it was given. -/
theorem foundKeywords_length_le (ml : String) :
    ∀ (kws : List JVal) (l : List String),
      foundKeywords ml kws = .ok l → l.length ≤ kws.length := by
  intro kws
  induction kws with
  | nil =>
    intro l h
    cases h
    exact Nat.le_refl 0
  | cons k ks ih =>
    intro l h
    cases k with
    | str sk =>
      rw [foundKeywords] at h
      split at h
      · exact Except.noConfusion h
      · rename_i found hrest
        have hf := ih found hrest
        split at h
        · cases h
          simpa [List.length_cons] using Nat.succ_le_succ hf
        · cases h
          exact Nat.le_succ_of_le hf
    | num n => rw [foundKeywords] at h; exact Except.noConfusion h
    | bool b => rw [foundKeywords] at h; exact Except.noConfusion h
    | null => rw [foundKeywords] at h; exact Except.noConfusion h

/-- C5: for a non-empty (string) keyword list, RuleEngine._check_keywords
returns cleanly and matches iff the case-insensitive substring search
finds at least one keyword; on a match the confidence is
min 1 (found/total) and the reason names the found keywords; finding
2 of 4 keywords gives confidence 1/2. -/
theorem c5_keyword_confidence (message : String) (keywords : List String)
    (hk : keywords ≠ []) :
    ∃ r, check_keywords message (keywords.map JVal.str) = .ok r ∧
      (r.isMatch = decide (0 < (keywords.filter fun kw =>
        strContains (lowerStr message) (lowerStr kw)).length)) ∧
      ((keywords.filter fun kw => strContains (lowerStr message) (lowerStr kw)) ≠ [] →
        r.confidence = pyMin 1 (((keywords.filter fun kw =>
          strContains (lowerStr message) (lowerStr kw)).length : ℚ) /
          (keywords.length : ℚ)) ∧
        r.reason = "Contains keywords: " ++ String.intercalate ", "
          (keywords.filter fun kw => strContains (lowerStr message) (lowerStr kw))) ∧
      (keywords.length = 4 →
        (keywords.filter fun kw =>
          strContains (lowerStr message) (lowerStr kw)).length = 2 →
        r.confidence = 1/2) := by
  have hck : check_keywords message (keywords.map JVal.str) =
      (if (keywords.filter fun kw => strContains (lowerStr message) (lowerStr kw)) ≠ [] then
        .ok { isMatch := true
              confidence := pyMin 1 (((keywords.filter fun kw =>
                strContains (lowerStr message) (lowerStr kw)).length : ℚ) /
                (keywords.length : ℚ))
              reason := "Contains keywords: " ++ String.intercalate ", "
                (keywords.filter fun kw => strContains (lowerStr message) (lowerStr kw)) }
      else .ok { isMatch := false, confidence := 0, reason := "No keywords found" }) := by
    simp only [check_keywords]
    rw [foundKeywords_map_str, List.length_map]
  by_cases hf : (keywords.filter fun kw => strContains (lowerStr message) (lowerStr kw)) = []
  · rw [hck, if_neg (by simp [hf])]
    refine ⟨_, rfl, ?_, fun h => absurd hf h, fun _ h2 => ?_⟩
    · simp [hf]
    · rw [hf] at h2
      simp at h2
  · rw [hck, if_pos hf]
    have hpos : 0 < (keywords.filter fun kw =>
        strContains (lowerStr message) (lowerStr kw)).length :=
      List.length_pos.mpr hf
    refine ⟨_, rfl, ?_, fun _ => ⟨rfl, rfl⟩, fun h4 h2 => ?_⟩
    · simp [hpos]
    · show pyMin 1 (((keywords.filter fun kw =>
        strContains (lowerStr message) (lowerStr kw)).length : ℚ) /
        (keywords.length : ℚ)) = 1/2
      rw [h4, h2]
      norm_num [pyMin]

unseal Rat.mul Rat.inv in
/-- Concrete C5 run: the case-insensitive search finds 2 of the 4
configured keywords. -/
theorem c5_keyword_confidence_witness :
    ∃ r, check_keywords "Alpha beta here"
        ((["alpha", "BETA", "gamma", "delta"] : List String).map JVal.str) = .ok r ∧
      (r.isMatch = decide (0 < ((["alpha", "BETA", "gamma", "delta"] : List String).filter
        fun kw => strContains (lowerStr "Alpha beta here") (lowerStr kw)).length)) ∧
      (((["alpha", "BETA", "gamma", "delta"] : List String).filter fun kw =>
          strContains (lowerStr "Alpha beta here") (lowerStr kw)) ≠ [] →
        r.confidence = pyMin 1 ((((["alpha", "BETA", "gamma", "delta"] : List String).filter
          fun kw => strContains (lowerStr "Alpha beta here") (lowerStr kw)).length : ℚ) /
          ((["alpha", "BETA", "gamma", "delta"] : List String).length : ℚ)) ∧
        r.reason = "Contains keywords: " ++ String.intercalate ", "
          ((["alpha", "BETA", "gamma", "delta"] : List String).filter fun kw =>
            strContains (lowerStr "Alpha beta here") (lowerStr kw))) ∧
      ((["alpha", "BETA", "gamma", "delta"] : List String).length = 4 →
        (((["alpha", "BETA", "gamma", "delta"] : List String).filter fun kw =>
          strContains (lowerStr "Alpha beta here") (lowerStr kw)).length = 2 →
        r.confidence = 1/2)) :=
  c5_keyword_confidence "Alpha beta here" ["alpha", "BETA", "gamma", "delta"] (by decide)

/-- C10: RuleEngine._check_keywords on an empty keyword list returns the
no-match result (matches=false, confidence 0, reason "No keywords
found") without raising, and whenever the match branch - the only place
the division by the keyword count happens - is taken, the keyword list
is non-empty, so the denominator is never zero. -/
theorem c10_empty_keywords_safe (message : String) :
    check_keywords message [] =
      .ok { isMatch := false, confidence := 0, reason := "No keywords found" } ∧
    ∀ (keywords : List JVal) (r : TriggerResult),
      check_keywords message keywords = .ok r → r.isMatch = true →
      0 < keywords.length := by
  constructor
  · rfl
  · intro kws r h hm
    simp only [check_keywords] at h
    split at h
    · exact Except.noConfusion h
    · rename_i found hfk
      split at h
      · rename_i hne
        cases h
        have h1 : 0 < found.length := List.length_pos.mpr hne
        have h2 : found.length ≤ kws.length := foundKeywords_length_le _ _ _ hfk
        omega
      · cases h
        simp at hm

unseal Rat.mul Rat.inv in
/-- Concrete C10 run: empty keyword list on a real message, and the
match branch taken on a singleton keyword list. -/
theorem c10_empty_keywords_safe_witness :
    check_keywords "hi there" [] =
      .ok { isMatch := false, confidence := 0, reason := "No keywords found" } ∧
    0 < ([JVal.str "hi"] : List JVal).length :=
  ⟨(c10_empty_keywords_safe "hi there").1,
    (c10_empty_keywords_safe "hi there").2 [JVal.str "hi"]
      { isMatch := true, confidence := 1, reason := "Contains keywords: hi" }
      (by decide) (by decide)⟩

/-- C2: the /evaluate endpoint produces its negative reasons in the
fixed order disabled (including a missing TenantConfig row), too short,
no active rules, no matching rules; the enablement and length checks
short-circuit, so a too-short message returns "Message too short" with
zero trigger evaluations performed. -/
theorem c2_negative_reason_order (ext : Externals) (now : Nat) (ctx : MessageContext)
    (s : SysState) :
    (s.cache.available = true →
      kvGet s.cache.config ctx.tenant_id now = none →
      ((s.db.configs.find? fun c => c.tenant_id == ctx.tenant_id) = none ∨
        ∃ c, (s.db.configs.find? fun c => c.tenant_id == ctx.tenant_id) = some c ∧
          c.enabled = false) →
      evaluate_message ext now ctx s =
        (.ok (.negative "Auto-transform disabled"), s, 0)) ∧
    (∀ cfg s1, readTenantConfig now ctx.tenant_id s = .ok (some cfg, s1) →
      ctx.message.length < cfg.min_message_length →
      evaluate_message ext now ctx s = (.ok (.negative "Message too short"), s1, 0)) ∧
    (∀ cfg s1 s2, readTenantConfig now ctx.tenant_id s = .ok (some cfg, s1) →
      ¬ ctx.message.length < cfg.min_message_length →
      readRules now ctx.tenant_id cfg s1 = .ok ([], s2) →
      evaluate_message ext now ctx s = (.ok (.negative "No active rules"), s2, 0)) ∧
    (∀ cfg s1 rules s2 n, readTenantConfig now ctx.tenant_id s = .ok (some cfg, s1) →
      ¬ ctx.message.length < cfg.min_message_length →
      readRules now ctx.tenant_id cfg s1 = .ok (rules, s2) →
      rules ≠ [] →
      evaluate_rulesC ext now ctx rules = (.ok none, n) →
      evaluate_message ext now ctx s = (.ok (.negative "No matching rules"), s2, n)) := by
  refine ⟨?_, ?_, ?_, ?_⟩
  · intro hav hmiss hdb
    have hread : readTenantConfig now ctx.tenant_id s = .ok (none, s) := by
      unfold readTenantConfig cacheGetConfig
      rw [hav]
      simp only [if_true, hmiss]
      rcases hdb with h | ⟨c, hc, hen⟩
      · rw [h]
      · rw [hc]
        simp only [hen, Bool.not_false, if_true]
    unfold evaluate_message
    rw [hread]
  · intro cfg s1 hread hshort
    unfold evaluate_message
    rw [hread]
    simp only [hshort, if_true]
  · intro cfg s1 s2 hread hlong hrules
    unfold evaluate_message
    rw [hread]
    simp only [hlong, if_false, hrules]
    rfl
  · intro cfg s1 rules s2 n hread hlong hrules hne heval
    unfold evaluate_message
    rw [hread]
    simp only [hlong, if_false, hrules]
    have : rules.isEmpty = false := by
      cases rules with
      | nil => exact absurd rfl hne
      | cons _ _ => rfl
    simp only [this, Bool.false_eq_true, if_false, heval]

/-- Context for the C2 disabled scenario (no TenantConfig row). -/
def c2ctxA : MessageContext :=
  { message := "hello world message", user_id := "u1", tenant_id := "t1",
    platform := "slack" }

/-- Empty state: no cache entries, no database rows. -/
def c2sA : SysState :=
  { cache := { available := true, config := [], rules := [] },
    db := { configs := [], rules := [], logs := [] } }

/-- Enabled config with the default minimum message length 50. -/
def c2cfgB : ConfigRec :=
  { id := "cfg1", tenant_id := "t1", enabled := true,
    default_transformation_type := "soften", default_intensity := 2,
    min_message_length := 50, max_processing_delay_ms := 500,
    require_confirmation := true, show_preview := true, preserve_original := true }

/-- Context with a 5-character message, below the length threshold. -/
def c2ctxB : MessageContext :=
  { message := "short", user_id := "u1", tenant_id := "t1", platform := "slack" }

/-- State with the enabled config cached (cache hit path). -/
def c2sB : SysState :=
  { cache := { available := true, config := [("t1", 2000, c2cfgB)], rules := [] },
    db := { configs := [], rules := [], logs := [] } }

/-- Enabled config with minimum message length 10. -/
def c2cfgC : ConfigRec :=
  { c2cfgB with min_message_length := 10 }

/-- Context with a message long enough for c2cfgC. -/
def c2ctxC : MessageContext :=
  { message := "this is a long enough message", user_id := "u1", tenant_id := "t1",
    platform := "slack" }

/-- State with the config cached and an empty cached rule list. -/
def c2sC : SysState :=
  { cache := { available := true, config := [("t1", 2000, c2cfgC)],
               rules := [("t1", 2000, [])] },
    db := { configs := [], rules := [], logs := [] } }

/-- Enabled keyword rule whose keyword does not occur in the C2
message. -/
def c2ruleNM : RuleRec :=
  { id := "r-nm", config_id := "cfg1", rule_name := "no-match", enabled := true,
    priority := 1, trigger_type := "keyword", trigger_value := { keywords := [.str "zzz"] },
    transformation_type := "soften", transformation_intensity := 2,
    transformation_options := [], platforms := [], channels := [] }

/-- State with the config cached and one cached non-matching rule. -/
def c2sD : SysState :=
  { cache := { available := true, config := [("t1", 2000, c2cfgC)],
               rules := [("t1", 2000, [c2ruleNM])] },
    db := { configs := [], rules := [], logs := [] } }

/-- Concrete C2 runs: each of the four negative reasons at its place in
the order, the too-short run with zero trigger evaluations, and the
no-matching-rules run with exactly one. -/
theorem c2_negative_reason_order_witness :
    evaluate_message testExt 1000 c2ctxA c2sA =
      (.ok (.negative "Auto-transform disabled"), c2sA, 0) ∧
    evaluate_message testExt 1000 c2ctxB c2sB =
      (.ok (.negative "Message too short"), c2sB, 0) ∧
    evaluate_message testExt 1000 c2ctxC c2sC =
      (.ok (.negative "No active rules"), c2sC, 0) ∧
    evaluate_message testExt 1000 c2ctxC c2sD =
      (.ok (.negative "No matching rules"), c2sD, 1) :=
  ⟨(c2_negative_reason_order testExt 1000 c2ctxA c2sA).1 rfl rfl (Or.inl rfl),
   (c2_negative_reason_order testExt 1000 c2ctxB c2sB).2.1 c2cfgB c2sB
     (by decide) (by decide),
   (c2_negative_reason_order testExt 1000 c2ctxC c2sC).2.2.1 c2cfgC c2sC c2sC
     (by decide) (by decide) (by decide),
   (c2_negative_reason_order testExt 1000 c2ctxC c2sD).2.2.2 c2cfgC c2sD [c2ruleNM] c2sD 1
     (by decide) (by decide) (by decide) (by decide) (by decide)⟩

/-- Upstream failure of the transform call: any response other than a
2xx body carrying success=True. -/
def IsUpstreamFailure (resp : LLMResponse) : Prop :=
  ∀ t, resp ≠ .ok true t

/-- C3: on any upstream transform failure (non-2xx status, transport
error or timeout, or a response without success), auto_transform sets
every TransformationLog row selected by the correlation WHERE clause
(same tenant and user, status=triggered, triggered within the last 60
seconds) to status=failed with the error text, leaves every other row
unchanged, and surfaces the failure to the caller - it never returns a
success result. -/
theorem c3_upstream_failure_logged (resp : LLMResponse) (now : Nat)
    (ctx : MessageContext) (tr : TransformationResult) (s : SysState)
    (h : IsUpstreamFailure resp) :
    ∃ e, auto_transform resp now ctx tr s =
      (.error e, { s with db := { s.db with logs := failLogs e now ctx s.db.logs } }) ∧
      ∀ l, (failLog e now l).status = "failed" ∧
        (failLog e now l).error_message = some e := by
  match resp with
  | .ok true t => exact absurd rfl (h t)
  | .ok false t => exact ⟨"Transformation failed", rfl, fun l => ⟨rfl, rfl⟩⟩
  | .httpStatusError code =>
    exact ⟨"HTTP status error: " ++ toString code, rfl, fun l => ⟨rfl, rfl⟩⟩
  | .transportError msg => exact ⟨msg, rfl, fun l => ⟨rfl, rfl⟩⟩

/-- Context for the concrete /transform runs. -/
def c3ctx : MessageContext :=
  { message := "original text", user_id := "u1", tenant_id := "t1",
    platform := "slack" }

/-- TransformationResult handed to the concrete /transform runs. -/
def c3tr : TransformationResult :=
  { should_transform := true, rule_id := some "r1", rule_name := some "rule one",
    transformation_type := "soften", transformation_intensity := 2, confidence := 1 }

/-- A correlated log row (triggered 5 seconds before now=100). -/
def c3logIn : LogRec :=
  { tenant_id := "t1", rule_id := some "r1", user_id := "u1",
    original_message := "original text", transformed_message := none,
    platform := "slack", channel_id := none, status := "triggered",
    error_message := none, triggered_at := 95, processed_at := none }

/-- An uncorrelated log row (other user). -/
def c3logOther : LogRec :=
  { c3logIn with user_id := "u2" }

/-- State holding one correlated and one uncorrelated log row. -/
def c3s : SysState :=
  { cache := { available := true, config := [], rules := [] },
    db := { configs := [], rules := [], logs := [c3logIn, c3logOther] } }

/-- Concrete C3 run: a 502 from the transform service marks the
correlated row failed and the endpoint raises. -/
theorem c3_upstream_failure_logged_witness :
    ∃ e, auto_transform (.httpStatusError 502) 100 c3ctx c3tr c3s =
      (.error e,
        { c3s with db := { c3s.db with logs := failLogs e 100 c3ctx c3s.db.logs } }) ∧
      ∀ l, (failLog e 100 l).status = "failed" ∧
        (failLog e 100 l).error_message = some e :=
  c3_upstream_failure_logged (.httpStatusError 502) 100 c3ctx c3tr c3s
    (fun t hh => LLMResponse.noConfusion hh)

/-- The older of the two correlated rows (triggered at 50, still inside
the window at now=100). -/
def c4older : LogRec :=
  { c3logIn with triggered_at := 50 }

/-- The newer correlated row (triggered at 90). -/
def c4newer : LogRec :=
  { c3logIn with triggered_at := 90 }

/-- Context matching both rows. -/
def c4ctx : MessageContext := c3ctx

/-- State holding two triggered rows for the same tenant and user, both
inside the 60-second window. -/
def c4s : SysState :=
  { cache := { available := true, config := [], rules := [] },
    db := { configs := [], rules := [], logs := [c4older, c4newer] } }

/-- C4 counterexample: with two triggered rows for the same tenant and
user inside the 60-second window, a successful transform updates BOTH
rows to status=transformed (the UPDATE has no LIMIT); the claim that
every row other than the most recent one is left unchanged is false on
this input, since the older row also ends up transformed. -/
theorem c4_counterexample :
    ((c4s.db.logs.map fun l => l.status) = ["triggered", "triggered"]) ∧
    (((auto_transform (.ok true "softened text") 100 c4ctx c3tr c4s).2.db.logs.map
        fun l => l.status) = ["transformed", "transformed"]) ∧
    c4older.triggered_at < c4newer.triggered_at := by
  refine ⟨by decide, by decide, by decide⟩

/-- C4 (amended): on transform success, auto_transform updates every
TransformationLog row matching (tenant, user, status=triggered,
triggered within the last 60 seconds) - not only the most recent - to
status=transformed with the output text, leaves rows not matching the
correlation predicate unchanged, and returns the success body. -/
theorem c4_success_updates_all_correlated (text : String) (now : Nat)
    (ctx : MessageContext) (tr : TransformationResult) (s : SysState) :
    auto_transform (.ok true text) now ctx tr s =
      (.ok { success := true, original := ctx.message, transformed := text,
             rule_applied := tr.rule_name, confidence := tr.confidence },
        { s with db := { s.db with logs := successLogs text now ctx s.db.logs } }) ∧
    (∀ l ∈ s.db.logs, logMatches now ctx l = false →
      l ∈ successLogs text now ctx s.db.logs) := by
  refine ⟨rfl, fun l hl hnm => ?_⟩
  unfold successLogs
  rw [List.mem_map]
  exact ⟨l, hl, by rw [hnm]; simp⟩

/-- Concrete C4 run: the success body and updated table on a state with
one correlated and one uncorrelated row; the uncorrelated row survives
unchanged. -/
theorem c4_success_updates_all_correlated_witness :
    auto_transform (.ok true "softened text") 100 c3ctx c3tr c3s =
      (.ok { success := true, original := c3ctx.message,
             transformed := "softened text", rule_applied := c3tr.rule_name,
             confidence := c3tr.confidence },
        { c3s with db := { c3s.db with
            logs := successLogs "softened text" 100 c3ctx c3s.db.logs } }) ∧
    c3logOther ∈ successLogs "softened text" 100 c3ctx c3s.db.logs :=
  ⟨(c4_success_updates_all_correlated "softened text" 100 c3ctx c3tr c3s).1,
   (c4_success_updates_all_correlated "softened text" 100 c3ctx c3tr c3s).2
     c3logOther (by decide) (by decide)⟩

/-- Time trigger bounded by 09:00 and 17:00. -/
def c7tv : TriggerValue := { after := some "09:00", before := some "17:00" }

unseal Rat.mul Rat.inv in
/-- C7 counterexample: at a current time exactly equal to the 'before'
bound (17:00:00, i.e. second 61200 of the day), RuleEngine._check_time
matches (the comparison is strict >, so the interval is closed on the
right), contradicting the claim that the bound is exclusive. -/
theorem c7_counterexample :
    timeFromIso "17:00" = some 61200 ∧
    check_time 61200 c7tv =
      .ok { isMatch := true, confidence := 9/10,
            reason := "Within time window: 17:00" } := by
  refine ⟨by decide, by decide⟩

/-- The match result _check_time returns, at a given time-of-day. -/
def timeMatchResult (tod : Nat) : TriggerResult :=
  { isMatch := true, confidence := 9/10, reason := "Within time window: " ++ fmtHM tod }

/-- C7 (amended): the time evaluator matches exactly when the current
time-of-day lies in the CLOSED interval [after, before]: it matches at a
time equal to the 'after' bound and also at a time equal to the 'before'
bound; an unset bound is always satisfied (both unset always matches),
and a match reports confidence 0.9. -/
theorem c7_time_window_closed (now : Nat) (tv : TriggerValue) :
    (tv.after = none → tv.before = none →
      check_time now tv = .ok (timeMatchResult (now % 86400))) ∧
    (∀ a ta, tv.after = some a → timeFromIso a = some ta → tv.before = none →
      ∃ r, check_time now tv = .ok r ∧
        r.isMatch = decide (ta ≤ now % 86400) ∧
        (r.isMatch = true → r.confidence = 9/10)) ∧
    (∀ b tb, tv.after = none → tv.before = some b → timeFromIso b = some tb →
      ∃ r, check_time now tv = .ok r ∧
        r.isMatch = decide (now % 86400 ≤ tb) ∧
        (r.isMatch = true → r.confidence = 9/10)) ∧
    (∀ a ta b tb, tv.after = some a → timeFromIso a = some ta →
      tv.before = some b → timeFromIso b = some tb →
      ∃ r, check_time now tv = .ok r ∧
        r.isMatch = (decide (ta ≤ now % 86400) && decide (now % 86400 ≤ tb)) ∧
        (r.isMatch = true → r.confidence = 9/10)) := by
  have hparse_ne : ∀ (x : String) (tx : Nat), timeFromIso x = some tx → x ≠ "" := by
    intro x tx hx h
    rw [h] at hx
    simp [timeFromIso, twoDigits] at hx
  refine ⟨?_, ?_, ?_, ?_⟩
  · intro ha hb
    unfold check_time
    rw [ha, hb]
    rfl
  · intro a ta ha hpa hb
    have hane := hparse_ne a ta hpa
    by_cases hlt : now % 86400 < ta
    · refine ⟨{ isMatch := false, confidence := 0, reason := "Before time window" },
        ?_, ?_, ?_⟩
      · unfold check_time
        rw [ha]
        simp only [hane, if_false, hpa, hlt, if_true, reduceIte]
      · simp only [decide_eq_false (not_le.mpr hlt)]
      · intro h
        simp at h
    · refine ⟨timeMatchResult (now % 86400), ?_, ?_, ?_⟩
      · unfold check_time timeMatchResult
        rw [ha, hb]
        simp only [hane, if_false, hpa, hlt, reduceIte]
      · simp [timeMatchResult, not_lt.mp hlt]
      · intro _
        rfl
  · intro b tb ha hb hpb
    have hbne := hparse_ne b tb hpb
    by_cases hgt : tb < now % 86400
    · refine ⟨{ isMatch := false, confidence := 0, reason := "After time window" },
        ?_, ?_, ?_⟩
      · unfold check_time
        rw [ha, hb]
        simp only [hbne, if_false, hpb, hgt, reduceIte]
      · simp only [decide_eq_false (not_le.mpr hgt)]
      · intro h
        simp at h
    · refine ⟨timeMatchResult (now % 86400), ?_, ?_, ?_⟩
      · unfold check_time timeMatchResult
        rw [ha, hb]
        simp only [hbne, if_false, hpb, hgt, reduceIte]
      · simp [timeMatchResult, not_lt.mp hgt]
      · intro _
        rfl
  · intro a ta b tb ha hpa hb hpb
    have hane := hparse_ne a ta hpa
    have hbne := hparse_ne b tb hpb
    by_cases hlt : now % 86400 < ta
    · refine ⟨{ isMatch := false, confidence := 0, reason := "Before time window" },
        ?_, ?_, ?_⟩
      · unfold check_time
        rw [ha]
        simp only [hane, if_false, hpa, hlt, reduceIte]
      · have : decide (ta ≤ now % 86400) = false := decide_eq_false (not_le.mpr hlt)
        rw [this]
        simp
      · intro h
        simp at h
    · by_cases hgt : tb < now % 86400
      · refine ⟨{ isMatch := false, confidence := 0, reason := "After time window" },
          ?_, ?_, ?_⟩
        · unfold check_time
          rw [ha, hb]
          simp only [hane, hbne, if_false, hpa, hpb, hlt, hgt, reduceIte]
        · have : decide (now % 86400 ≤ tb) = false := decide_eq_false (not_le.mpr hgt)
          rw [this]
          simp
        · intro h
          simp at h
      · refine ⟨timeMatchResult (now % 86400), ?_, ?_, ?_⟩
        · unfold check_time timeMatchResult
          rw [ha, hb]
          simp only [hane, hbne, if_false, hpa, hpb, hlt, hgt, reduceIte]
        · simp [timeMatchResult, not_lt.mp hlt, not_lt.mp hgt]
        · intro _
          rfl

/-- Concrete C7 runs: both bounds unset always matches, and with bounds
09:00/17:00 the evaluator at 17:00:00 reports a match (closed upper
bound). -/
theorem c7_time_window_closed_witness :
    check_time 61200 ({} : TriggerValue) = .ok (timeMatchResult (61200 % 86400)) ∧
    ∃ r, check_time 61200 c7tv = .ok r ∧
      r.isMatch = (decide ((32400 : Nat) ≤ 61200 % 86400) &&
        decide (61200 % 86400 ≤ 61200)) ∧
      (r.isMatch = true → r.confidence = 9/10) :=
  ⟨(c7_time_window_closed 61200 {}).1 rfl rfl,
   (c7_time_window_closed 61200 c7tv).2.2.2 "09:00" 32400 "17:00" 61200
     rfl (by decide) rfl (by decide)⟩

/-- find? misses on a list filtered to exclude exactly the matches. -/
theorem find_filter_not {α : Type} (p : α → Bool) :
    ∀ l : List α, (l.filter fun a => !(p a)).find? p = none := by
  intro l
  induction l with
  | nil => rfl
  | cons a as ih =>
    rw [List.filter_cons]
    by_cases h : p a
    · simp only [h, Bool.not_true, Bool.false_eq_true, if_false]
      exact ih
    · have h' : p a = false := by simpa using h
      simp only [h', Bool.not_false, if_true]
      rw [List.find?_cons_of_neg _ (by simp [h'])]
      exact ih

/-- Looking up a key right after deleting it always misses. -/
theorem kvGet_kvDel {α : Type} (l : List (String × Nat × α)) (key : String) (now : Nat) :
    kvGet (kvDel l key) key now = none := by
  unfold kvGet kvDel
  rw [find_filter_not]

/-- find? over the UPDATE's row map returns the updated row (applyCfg
keeps tenant_id, so the WHERE predicate is unchanged). -/
theorem find_map_applyCfg (tenant : String) (cfg : AutoTransformConfigIn) :
    ∀ l : List ConfigRec,
      ((l.map fun c => if c.tenant_id == tenant then applyCfg cfg c else c).find? fun c =>
        c.tenant_id == tenant) =
      (l.find? fun c => c.tenant_id == tenant).map (applyCfg cfg) := by
  intro l
  induction l with
  | nil => rfl
  | cons c cs ih =>
    by_cases h : (c.tenant_id == tenant) = true
    · have h2 : ((applyCfg cfg c).tenant_id == tenant) = true := h
      rw [List.map_cons, if_pos h]
      simp only [List.find?_cons, h2, h]
      rfl
    · have h' : (c.tenant_id == tenant) = false := by simpa using h
      rw [List.map_cons, if_neg (by simp [h'])]
      simp only [List.find?_cons, h']
      exact ih

/-- find? over an appended list when the first part misses. -/
theorem find_append_none {α : Type} (p : α → Bool) (l2 : List α) :
    ∀ l1 : List α, l1.find? p = none → (l1 ++ l2).find? p = l2.find? p := by
  intro l1
  induction l1 with
  | nil => intro _; rfl
  | cons a l ih =>
    intro h
    simp only [List.find?_cons] at h
    cases hp : p a with
    | true =>
      rw [hp] at h
      exact Option.noConfusion h
    | false =>
      rw [hp] at h
      rw [List.cons_append, List.find?_cons_of_neg _ (by simp [hp])]
      exact ih h

/-- On a cache miss with a present config row, readTenantConfig returns
the row when it is enabled and the disabled signal otherwise. -/
theorem readTenantConfig_miss (now' : Nat) (tenant : String) (s2 : SysState)
    (c : ConfigRec) (hav : s2.cache.available = true)
    (hmiss : kvGet s2.cache.config tenant now' = none)
    (hfind : (s2.db.configs.find? fun c => c.tenant_id == tenant) = some c) :
    ∃ s3, readTenantConfig now' tenant s2 =
      .ok ((if c.enabled then some c else none), s3) := by
  unfold readTenantConfig cacheGetConfig
  simp only [hav, if_true, hmiss, hfind]
  cases hen : c.enabled with
  | false =>
    refine ⟨s2, ?_⟩
    simp [hen]
  | true =>
    unfold cacheSetConfig
    simp only [hav, if_true, hen]
    exact ⟨_, rfl⟩

/-- C8: updating a tenant's configuration writes the store and then
deletes that tenant's cache entry, so the write reports success, the
cache no longer holds any value for the tenant at any later time
(regardless of the 300-second TTL), the stored row carries exactly the
new field values, and the next configuration read returns a value
determined by the new configuration alone - never the pre-update
value. -/
theorem c8_update_config_invalidates (s : SysState) (tenant : String)
    (cfg : AutoTransformConfigIn) (newId : String) (now' : Nat)
    (hav : s.cache.available = true) :
    (update_config tenant cfg newId s).1 = .ok () ∧
    kvGet (update_config tenant cfg newId s).2.cache.config tenant now' = none ∧
    ∃ c, ((update_config tenant cfg newId s).2.db.configs.find? fun c =>
        c.tenant_id == tenant) = some c ∧
      c.enabled = cfg.enabled ∧
      c.default_transformation_type = cfg.default_transformation_type ∧
      c.default_intensity = cfg.default_intensity ∧
      c.min_message_length = cfg.min_message_length ∧
      c.max_processing_delay_ms = cfg.max_processing_delay_ms ∧
      c.require_confirmation = cfg.require_confirmation ∧
      c.show_preview = cfg.show_preview ∧
      c.preserve_original = cfg.preserve_original ∧
      ∃ s3, readTenantConfig now' tenant (update_config tenant cfg newId s).2 =
        .ok ((if c.enabled then some c else none), s3) := by
  have hres : (update_config tenant cfg newId s).1 = .ok () := by
    unfold update_config
    simp only [hav, if_true]
  have hcache : (update_config tenant cfg newId s).2.cache =
      { s.cache with config := kvDel s.cache.config tenant } := by
    unfold update_config
    simp only [hav, if_true]
  have hmiss : kvGet (update_config tenant cfg newId s).2.cache.config tenant now' =
      none := by
    rw [hcache]
    exact kvGet_kvDel _ _ _
  have hav2 : (update_config tenant cfg newId s).2.cache.available = true := by
    rw [hcache]
    exact hav
  rcases hfind : s.db.configs.find? fun c => c.tenant_id == tenant with _ | ex
  · have hdbc : (update_config tenant cfg newId s).2.db.configs =
        s.db.configs ++ [newConfigRec newId tenant cfg] := by
      unfold update_config
      rw [hfind]
      simp only [hav, if_true]
    have hfound : ((update_config tenant cfg newId s).2.db.configs.find? fun c =>
        c.tenant_id == tenant) = some (newConfigRec newId tenant cfg) := by
      rw [hdbc, find_append_none _ _ _ hfind]
      simp [List.find?_cons, newConfigRec]
    refine ⟨hres, hmiss, newConfigRec newId tenant cfg, hfound,
      rfl, rfl, rfl, rfl, rfl, rfl, rfl, rfl, ?_⟩
    exact readTenantConfig_miss now' tenant _ _ hav2 hmiss hfound
  · have hdbc : (update_config tenant cfg newId s).2.db.configs =
        s.db.configs.map fun c =>
          if c.tenant_id == tenant then applyCfg cfg c else c := by
      unfold update_config
      rw [hfind]
      simp only [hav, if_true]
    have hfound : ((update_config tenant cfg newId s).2.db.configs.find? fun c =>
        c.tenant_id == tenant) = some (applyCfg cfg ex) := by
      rw [hdbc, find_map_applyCfg, hfind]
      rfl
    refine ⟨hres, hmiss, applyCfg cfg ex, hfound,
      rfl, rfl, rfl, rfl, rfl, rfl, rfl, rfl, ?_⟩
    exact readTenantConfig_miss now' tenant _ _ hav2 hmiss hfound

/-- The pre-update config row (also sitting unexpired in the cache). -/
def c8oldCfg : ConfigRec :=
  { id := "cfg1", tenant_id := "t1", enabled := true,
    default_transformation_type := "soften", default_intensity := 2,
    min_message_length := 50, max_processing_delay_ms := 500,
    require_confirmation := true, show_preview := true, preserve_original := true }

/-- The new configuration written by PUT /config. -/
def c8newIn : AutoTransformConfigIn :=
  { enabled := true, default_transformation_type := "tone", default_intensity := 3,
    min_message_length := 20, max_processing_delay_ms := 300,
    require_confirmation := false, show_preview := false, preserve_original := false }

/-- State whose cache still holds the pre-update value with 900 seconds
of TTL left at read time 100. -/
def c8s : SysState :=
  { cache := { available := true, config := [("t1", 1000, c8oldCfg)], rules := [] },
    db := { configs := [c8oldCfg], rules := [], logs := [] } }

/-- Concrete C8 run: after the update the stale cached value is gone and
the next read returns the new configuration although the old entry's TTL
had not elapsed. -/
theorem c8_update_config_invalidates_witness :
    (update_config "t1" c8newIn "cfg-new" c8s).1 = .ok () ∧
    kvGet (update_config "t1" c8newIn "cfg-new" c8s).2.cache.config "t1" 100 = none ∧
    ∃ c, ((update_config "t1" c8newIn "cfg-new" c8s).2.db.configs.find? fun c =>
        c.tenant_id == "t1") = some c ∧
      c.enabled = c8newIn.enabled ∧
      c.default_transformation_type = c8newIn.default_transformation_type ∧
      c.default_intensity = c8newIn.default_intensity ∧
      c.min_message_length = c8newIn.min_message_length ∧
      c.max_processing_delay_ms = c8newIn.max_processing_delay_ms ∧
      c.require_confirmation = c8newIn.require_confirmation ∧
      c.show_preview = c8newIn.show_preview ∧
      c.preserve_original = c8newIn.preserve_original ∧
      ∃ s3, readTenantConfig 100 "t1" (update_config "t1" c8newIn "cfg-new" c8s).2 =
        .ok ((if c.enabled then some c else none), s3) :=
  c8_update_config_invalidates c8s "t1" c8newIn "cfg-new" 100 rfl

/-- C9 (amended): when the cache is unavailable, the very first Redis
GET of evaluate_message raises, the generic handler turns it into the
HTTP 500 error, and no fallback to the persistent store happens - cache
unavailability IS surfaced to the caller as a failure. -/
theorem c9_cache_failure_surfaces (ext : Externals) (now : Nat)
    (ctx : MessageContext) (s : SysState) (h : s.cache.available = false) :
    evaluate_message ext now ctx s = (.error redisErr, s, 0) := by
  unfold evaluate_message readTenantConfig cacheGetConfig
  simp only [h, Bool.false_eq_true, if_false]

/-- Enabled config used by the C9 runs (threshold 5). -/
def c9cfg : ConfigRec :=
  { c8oldCfg with min_message_length := 5 }

/-- Enabled keyword rule matching the C9 message. -/
def c9rule : RuleRec :=
  { id := "r1", config_id := "cfg1", rule_name := "greet", enabled := true,
    priority := 1, trigger_type := "keyword", trigger_value := { keywords := [.str "hello"] },
    transformation_type := "soften", transformation_intensity := 2,
    transformation_options := [], platforms := [], channels := [] }

/-- Context for the C9 runs. -/
def c9ctx : MessageContext :=
  { message := "hello world", user_id := "u1", tenant_id := "t1", platform := "slack" }

/-- Reachable store with a cold, working cache. -/
def c9sCold : SysState :=
  { cache := { available := true, config := [], rules := [] },
    db := { configs := [c9cfg], rules := [c9rule], logs := [] } }

/-- The same store behind an unavailable cache. -/
def c9sBroken : SysState :=
  { cache := { available := false, config := [], rules := [] },
    db := { configs := [c9cfg], rules := [c9rule], logs := [] } }

/-- The decision the cold-cache run produces. -/
def c9res : TransformationResult :=
  { should_transform := true, rule_id := some "r1", rule_name := some "greet",
    transformation_type := "soften", transformation_intensity := 2,
    transformation_options := [], confidence := 1,
    reason := some "Contains keywords: hello" }

unseal Rat.mul Rat.inv in
/-- C9 counterexample: with the persistent store reachable, the same
request succeeds against a cold working cache but returns the HTTP 500
error when the cache is unavailable - evaluation does not fall back to
the store and does not return the cold-cache decision. -/
theorem c9_counterexample :
    (evaluate_message testExt 1000 c9ctx c9sBroken).1 = .error redisErr ∧
    (evaluate_message testExt 1000 c9ctx c9sCold).1 = .ok (.positive c9res) := by
  refine ⟨by decide, by decide⟩

/-- Concrete C9 run for the amended claim: the unavailable-cache request
fails with the Redis error and performs no trigger evaluations. -/
theorem c9_cache_failure_surfaces_witness :
    evaluate_message testExt 1000 c9ctx c9sBroken = (.error redisErr, c9sBroken, 0) :=
  c9_cache_failure_surfaces testExt 1000 c9ctx c9sBroken rfl
